import Mathlib

/-!
Verification of the land-health classification engine of the TerraScope
dashboard (`src/app.py`), as a shallow embedding in Lean 4.

Numeric sensor readings are modelled as rationals (`ℚ`); statuses and
suggestions are the exact strings the Python code produces.
-/

namespace TerraScope

/-- Embedding of `classify_land` (src/app.py lines 40-46).  Argument order
matches the Python signature: `(vegetation_index, soil_moisture, temperature)`. -/
def classify_land (vegetation_index soil_moisture temperature : ℚ) : String :=
  if vegetation_index < 3/10 ∨ soil_moisture < 20 ∨ temperature > 35 then
    "Degraded"
  else if vegetation_index < 5/10 ∨ soil_moisture < 35 then
    "At Risk"
  else
    "Healthy"

/-- Embedding of `get_suggestion` (src/app.py lines 51-57). -/
def get_suggestion (status : String) : String :=
  if status = "Degraded" then
    "Recommend: Reforestation or irrigation to restore soil health."
  else if status = "At Risk" then
    "Recommend: Mulching, cover crops, or moderate irrigation."
  else
    "Land is healthy. Maintain current practices."

/-- The decision table as the spec words it, with the spec's *default*
thresholds (spec §4.1): Degraded when `soil_moisture < 30` OR
`temperature > 35` OR `vegetation_index < 0.3`; else AtRisk when
`soil_moisture < 40` OR `temperature > 33` OR `vegetation_index < 0.4`;
else Healthy.  Written from the spec's words, to be compared against
`classify_land` (a refinement check). -/
def spec_default_classify (soil_moisture vegetation_index temperature : ℚ) : String :=
  if soil_moisture < 30 ∨ temperature > 35 ∨ vegetation_index < 3/10 then
    "Degraded"
  else if soil_moisture < 40 ∨ temperature > 33 ∨ vegetation_index < 4/10 then
    "AtRisk"
  else
    "Healthy"

end TerraScope

namespace TerraScope

/-- C1 counterexample: at `soil_moisture = 25`, `vegetation_index = 0.6`,
`temperature = 25` the spec's default decision table yields Degraded
(`25 < 30` on the moisture axis) while the code classifies the same triple
as "At Risk" (`25 < 35` but not `25 < 20`). -/
theorem C1_counterexample :
    classify_land (6/10) 25 25 = "At Risk" ∧
      spec_default_classify 25 (6/10) 25 = "Degraded" ∧
      classify_land (6/10) 25 25 ≠ spec_default_classify 25 (6/10) 25 := by
  unfold classify_land spec_default_classify
  norm_num
  decide

/-- C1 (amended): with the code's own thresholds, the classifier equals the
decision table: Degraded exactly when `vegetation_index < 0.3` or
`soil_moisture < 20` or `temperature > 35`; otherwise "At Risk" exactly
when `vegetation_index < 0.5` or `soil_moisture < 35` (there is no
temperature condition in this tier); otherwise Healthy. -/
theorem C1_classify_decision_table (v s t : ℚ) :
    (classify_land v s t = "Degraded" ↔ (v < 3/10 ∨ s < 20 ∨ t > 35)) ∧
    (classify_land v s t = "At Risk" ↔
      (¬(v < 3/10 ∨ s < 20 ∨ t > 35) ∧ (v < 5/10 ∨ s < 35))) ∧
    (classify_land v s t = "Healthy" ↔
      (¬(v < 3/10 ∨ s < 20 ∨ t > 35) ∧ ¬(v < 5/10 ∨ s < 35))) := by
  unfold classify_land
  split_ifs with h1 h2 <;> refine ⟨?_, ?_, ?_⟩ <;> simp_all

/-- C2: tiers are evaluated in fixed order with OR-across-axes semantics:
any single Degraded condition yields Degraded; only otherwise do the
"At Risk" conditions apply, any one of which yields "At Risk"; otherwise
Healthy.  In particular `classify(soil=10, veg=0.6, temp=25)` is Degraded
on the moisture axis alone. -/
theorem C2_tier_order (v s t : ℚ) :
    ((v < 3/10 ∨ s < 20 ∨ t > 35) → classify_land v s t = "Degraded") ∧
    (¬(v < 3/10 ∨ s < 20 ∨ t > 35) → (v < 5/10 ∨ s < 35) →
      classify_land v s t = "At Risk") ∧
    (¬(v < 3/10 ∨ s < 20 ∨ t > 35) → ¬(v < 5/10 ∨ s < 35) →
      classify_land v s t = "Healthy") ∧
    classify_land (6/10) 10 25 = "Degraded" := by
  refine ⟨?_, ?_, ?_, by unfold classify_land; norm_num⟩ <;>
    · intros
      unfold classify_land
      split_ifs <;> simp_all

/-- C2 witness: the moisture axis alone (soil = 10) makes the Degraded tier
fire at concrete healthy vegetation and temperature. -/
theorem C2_tier_order_witness :
    classify_land (6/10) 10 25 = "Degraded" :=
  (C2_tier_order (6/10) 10 25).1 (by norm_num)

/-- C3 counterexample: the code produces the status string "At Risk" (with a
space), which is none of the spec's canonical enum spellings `Healthy`,
`AtRisk`, `Degraded`. -/
theorem C3_counterexample :
    classify_land (4/10) 50 25 ≠ "Healthy" ∧
      classify_land (4/10) 50 25 ≠ "AtRisk" ∧
      classify_land (4/10) 50 25 ≠ "Degraded" := by
  unfold classify_land
  norm_num
  decide

/-- C3 (amended): for every input the classifier returns exactly one of the
three status strings "Healthy", "At Risk", "Degraded" — the middle tier is
spelled with a space — and no other status string is ever produced. -/
theorem C3_status_range (v s t : ℚ) :
    classify_land v s t = "Healthy" ∨
      classify_land v s t = "At Risk" ∨
      classify_land v s t = "Degraded" := by
  unfold classify_land
  split_ifs with h1 h2
  · exact Or.inr (Or.inr rfl)
  · exact Or.inr (Or.inl rfl)
  · exact Or.inl rfl

/-- C5 counterexample: `get_suggestion "Degraded"` is the code's string
"Recommend: Reforestation or irrigation to restore soil health.", not the
spec's "Land is degraded: recommend irrigation or reforestation
intervention."; likewise the spec's key `AtRisk` falls through to the
healthy-maintenance message because the code keys on "At Risk". -/
theorem C5_counterexample :
    get_suggestion "Degraded" ≠
        "Land is degraded: recommend irrigation or reforestation intervention." ∧
      get_suggestion "AtRisk" = "Land is healthy. Maintain current practices." := by
  constructor <;> decide

/-- C5 (amended): the suggestion is a pure lookup keyed only by status,
returning exactly: for "Degraded", "Recommend: Reforestation or irrigation
to restore soil health."; for "At Risk", "Recommend: Mulching, cover crops,
or moderate irrigation."; for "Healthy" (as for any other key), "Land is
healthy. Maintain current practices.". -/
theorem C5_suggestion_table :
    get_suggestion "Degraded" =
        "Recommend: Reforestation or irrigation to restore soil health." ∧
      get_suggestion "At Risk" =
        "Recommend: Mulching, cover crops, or moderate irrigation." ∧
      get_suggestion "Healthy" = "Land is healthy. Maintain current practices." := by
  refine ⟨?_, ?_, ?_⟩ <;> decide

/-- C6: the classifier is total — for every rational-valued triple,
including values far outside the expected physical ranges, it returns a
status; e.g. `vegetation_index = 2, soil_moisture = -5, temperature = 100`
and `vegetation_index = 1.5, soil_moisture = 200, temperature = -80` both
classify without error. -/
theorem C6_total (v s t : ℚ) :
    (∃ st : String,
        classify_land v s t = st ∧
          (st = "Healthy" ∨ st = "At Risk" ∨ st = "Degraded")) ∧
      classify_land 2 (-5) 100 = "Degraded" ∧
      classify_land (3/2) 200 (-80) = "Healthy" := by
  refine ⟨⟨classify_land v s t, rfl, ?_⟩, by unfold classify_land; norm_num,
    by unfold classify_land; norm_num⟩
  unfold classify_land
  split_ifs with h1 h2
  · exact Or.inr (Or.inr rfl)
  · exact Or.inr (Or.inl rfl)
  · exact Or.inl rfl

/-- C10: the suggestion lookup is total on arbitrary status strings — every
key other than "Degraded" and "At Risk", including unknown or misspelled
statuses, falls through to the healthy-maintenance message. -/
theorem C10_suggestion_fallthrough (st : String)
    (hd : st ≠ "Degraded") (hr : st ≠ "At Risk") :
    get_suggestion st = "Land is healthy. Maintain current practices." := by
  unfold get_suggestion
  split_ifs <;> simp_all

/-- C10 witness: a misspelled status such as "degraded" receives the
healthy-maintenance message. -/
theorem C10_suggestion_fallthrough_witness :
    get_suggestion "degraded" = "Land is healthy. Maintain current practices." :=
  C10_suggestion_fallthrough "degraded" (by decide) (by decide)

end TerraScope

namespace TerraScope

/-- One row of the dashboard's data frame (spec §3): `id` is assigned by the
storage layer (absent on unpersisted records); `latitude`/`longitude` may be
missing (`pd.to_numeric(..., errors="coerce")` turns non-numeric entries into
NaN, modelled as `none`). -/
structure Observation where
  id : Option Nat
  location : String
  latitude : Option ℚ
  longitude : Option ℚ
  soil_moisture : ℚ
  vegetation_index : ℚ
  temperature : ℚ
  timestamp : String
deriving DecidableEq

/-- Per-row status column (src/app.py lines 68-71): `classify_land` applied to
the row's readings only. -/
def row_status (r : Observation) : String :=
  classify_land r.vegetation_index r.soil_moisture r.temperature

/-- Per-row suggestion column (src/app.py line 72). -/
def row_suggestion (r : Observation) : String :=
  get_suggestion (row_status r)

/-- The data table with the derived status/suggestion columns attached to
every row (src/app.py lines 68-72 and 123-124): no row is dropped. -/
def withStatus (rows : List Observation) : List (Observation × String × String) :=
  rows.map (fun r => (r, row_status r, row_suggestion r))

/-- The rows rendered as map markers (src/app.py lines 87-102): exactly those
whose latitude and longitude are both present. -/
def mapMarkers (rows : List Observation) : List (Observation × String × String) :=
  (withStatus rows).filter (fun e => e.1.latitude.isSome && e.1.longitude.isSome)

/-- A value of the record submitted to the storage layer: either a string
field or a numeric field. -/
inductive FieldValue where
  | str : String → FieldValue
  | num : ℚ → FieldValue
deriving DecidableEq

/-- Embedding of the `insert_data` dict built on form submission
(src/app.py lines 149-162), as an ordered association list of field name and
value.  `status` and `suggestion` are computed from the submitted readings by
`classify_land`/`get_suggestion` (lines 150-151). -/
def insert_data (location_name : String)
    (latitude longitude vegetation_index soil_moisture temperature : ℚ) :
    List (String × FieldValue) :=
  let status := classify_land vegetation_index soil_moisture temperature
  let suggestion := get_suggestion status
  [("location", FieldValue.str location_name),
   ("latitude", FieldValue.num latitude),
   ("longitude", FieldValue.num longitude),
   ("soil_moisture", FieldValue.num soil_moisture),
   ("vegetation_index", FieldValue.num vegetation_index),
   ("temperature", FieldValue.num temperature),
   ("status", FieldValue.str status),
   ("suggestion", FieldValue.str suggestion)]

end TerraScope

namespace TerraScope

/-- C7: the status and suggestion columns are pure, deterministic functions of
the triple (soil_moisture, vegetation_index, temperature) only — two rows
that agree on the three readings get identical (status, suggestion) output,
whatever their location, timestamp, coordinates or id. -/
theorem C7_status_pure (r1 r2 : Observation)
    (hs : r1.soil_moisture = r2.soil_moisture)
    (hv : r1.vegetation_index = r2.vegetation_index)
    (ht : r1.temperature = r2.temperature) :
    row_status r1 = row_status r2 ∧ row_suggestion r1 = row_suggestion r2 := by
  unfold row_suggestion row_status
  rw [hs, hv, ht]
  exact ⟨rfl, rfl⟩

/-- A concrete persisted row with coordinates. -/
def obsA : Observation :=
  { id := some 1, location := "Lagos", latitude := some 6, longitude := some 3,
    soil_moisture := 50, vegetation_index := 6/10, temperature := 25,
    timestamp := "2024-01-01" }

/-- A concrete unpersisted row with the same readings as `obsA` but different
location, timestamp, and missing coordinates. -/
def obsB : Observation :=
  { id := none, location := "Abuja", latitude := none, longitude := none,
    soil_moisture := 50, vegetation_index := 6/10, temperature := 25,
    timestamp := "2025-12-31" }

/-- C7 witness: `obsA` and `obsB` differ in id, location, coordinates and
timestamp but share the three readings, so their status and suggestion
agree. -/
theorem C7_status_pure_witness :
    row_status obsA = row_status obsB ∧ row_suggestion obsA = row_suggestion obsB :=
  C7_status_pure obsA obsB rfl rfl rfl

/-- C8 counterexample: the record handed to the repository's insert contains
the derived `status` key (and `suggestion`), contrary to the claim that only
the §3 observation fields are persisted. -/
theorem C8_counterexample :
    "status" ∈ (insert_data "Unknown Location" 9 8 (1/2) 40 28).map Prod.fst ∧
      "suggestion" ∈ (insert_data "Unknown Location" 9 8 (1/2) 40 28).map Prod.fst := by
  constructor <;> simp [insert_data]

/-- C8 (amended): the record passed to insert carries exactly the keys
location, latitude, longitude, soil_moisture, vegetation_index, temperature,
status, suggestion — i.e. the derived status and suggestion ARE persisted
alongside the observation fields, the persisted status/suggestion being the
classifier output on the submitted readings — and no timestamp field is sent
(the storage layer assigns it). -/
theorem C8_insert_fields (loc : String) (lat lon v s t : ℚ) :
    (insert_data loc lat lon v s t).map Prod.fst =
      ["location", "latitude", "longitude", "soil_moisture",
       "vegetation_index", "temperature", "status", "suggestion"] ∧
      "timestamp" ∉ (insert_data loc lat lon v s t).map Prod.fst ∧
      ("status", FieldValue.str (classify_land v s t)) ∈ insert_data loc lat lon v s t ∧
      ("suggestion", FieldValue.str (get_suggestion (classify_land v s t))) ∈
        insert_data loc lat lon v s t := by
  refine ⟨?_, ?_, ?_, ?_⟩ <;> simp [insert_data]

/-- C9: every row of the data frame receives a status and suggestion and
appears in the data table, and it is rendered as a map marker exactly when
both its coordinates are present. -/
theorem C9_missing_coordinates (rows : List Observation) (r : Observation)
    (hm : r ∈ rows) :
    (r, row_status r, row_suggestion r) ∈ withStatus rows ∧
      ((r, row_status r, row_suggestion r) ∈ mapMarkers rows ↔
        (r.latitude.isSome ∧ r.longitude.isSome)) := by
  have h1 : (r, row_status r, row_suggestion r) ∈ withStatus rows :=
    List.mem_map_of_mem _ hm
  refine ⟨h1, ?_⟩
  unfold mapMarkers
  rw [List.mem_filter]
  simp [h1]

/-- C9 witness: in the table `[obsA, obsB]`, the coordinate-less row `obsB`
still gets its status/suggestion row in the table, and is on the map iff its
coordinates are present (they are not). -/
theorem C9_missing_coordinates_witness :
    (obsB, row_status obsB, row_suggestion obsB) ∈ withStatus [obsA, obsB] ∧
      ((obsB, row_status obsB, row_suggestion obsB) ∈ mapMarkers [obsA, obsB] ↔
        (obsB.latitude.isSome ∧ obsB.longitude.isSome)) :=
  C9_missing_coordinates [obsA, obsB] obsB (by simp)

end TerraScope

namespace TerraScope

/-- Configurable threshold tiers (spec §4.1). -/
structure Thresholds where
  deg_moisture : ℚ
  deg_temp : ℚ
  deg_veg : ℚ
  risk_moisture : ℚ
  risk_temp : ℚ
  risk_veg : ℚ

/-- The spec's default thresholds (§4.1): Degraded at soil < 30, temp > 35,
veg < 0.3; AtRisk at soil < 40, temp > 33, veg < 0.4. -/
def defaultThresholds : Thresholds :=
  { deg_moisture := 30, deg_temp := 35, deg_veg := 3/10,
    risk_moisture := 40, risk_temp := 33, risk_veg := 4/10 }

/-- Modelled from the spec: the configurable-threshold classifier of §4.1 —
`src/app.py` contains only the hard-coded `classify_land`; the configurable
variant used by the Aggregator exists only in the spec. -/
def spec_classify (th : Thresholds) (soil veg temp : ℚ) : String :=
  if soil < th.deg_moisture ∨ temp > th.deg_temp ∨ veg < th.deg_veg then
    "Degraded"
  else if soil < th.risk_moisture ∨ temp > th.risk_temp ∨ veg < th.risk_veg then
    "AtRisk"
  else
    "Healthy"

/-- Modelled from the spec: the suggestion lookup of §4.1 keyed on the spec's
canonical statuses, used by the spec's Aggregator for `per_row` entries. -/
def spec_suggestion (status : String) : String :=
  if status = "Degraded" then
    "Land is degraded: recommend irrigation or reforestation intervention."
  else if status = "AtRisk" then
    "Land is at risk: recommend mulching, cover crops, or moderate irrigation."
  else
    "Land is healthy: maintain current practices."

/-- Fleet mean of soil moisture over a collection of observations. -/
def mean_soil (obs : List Observation) : ℚ :=
  (obs.map (·.soil_moisture)).sum / obs.length

/-- Fleet mean of temperature over a collection of observations. -/
def mean_temp (obs : List Observation) : ℚ :=
  (obs.map (·.temperature)).sum / obs.length

/-- Fleet mean of the vegetation index over a collection of observations. -/
def mean_veg (obs : List Observation) : ℚ :=
  (obs.map (·.vegetation_index)).sum / obs.length

/-- The Aggregator's output (spec §4.2): per-row (id, status, suggestion),
fleet means (none when there is no data), the mean-based fleet warning, and
the degraded subsequence of `per_row`. -/
structure AlertReport where
  per_row : List (Option Nat × String × String)
  fleet_means : Option (ℚ × ℚ × ℚ)
  fleet_warning : Bool
  degraded_rows : List (Option Nat × String × String)

/-- Modelled from the spec: `evaluate` of §4.2 — no Aggregator/Alert
Evaluator exists in `src/app.py`; the spec alone defines it.  `per_row`
applies the §4.1 classifier row by row in input order; `fleet_warning` is
true exactly when the fleet means cross the Degraded-tier thresholds; empty
input gives no means, no warning and empty lists. -/
def evaluate (th : Thresholds) (obs : List Observation) : AlertReport :=
  let row := fun (r : Observation) =>
    let st := spec_classify th r.soil_moisture r.vegetation_index r.temperature
    (r.id, st, spec_suggestion st)
  if obs = [] then
    { per_row := [], fleet_means := none, fleet_warning := false, degraded_rows := [] }
  else
    let per_row := obs.map row
    let ms := mean_soil obs
    let mt := mean_temp obs
    let mv := mean_veg obs
    { per_row := per_row,
      fleet_means := some (ms, mt, mv),
      fleet_warning := decide (ms < th.deg_moisture ∨ mt > th.deg_temp ∨ mv < th.deg_veg),
      degraded_rows := per_row.filter (fun e => e.2.1 == "Degraded") }

end TerraScope

namespace TerraScope

/-- C4: `fleet_warning` is true exactly when the fleet means cross the
Degraded-tier thresholds, a condition on the means only, independent of any
individual row's status; on the empty observation sequence the warning is
false and `per_row`/`degraded_rows` are empty (and, `evaluate` being a total
function, no exception is possible).  The Aggregator is modelled from spec
§4.2 since `src/app.py` contains no aggregation code. -/
theorem C4_fleet_warning (th : Thresholds) :
    (∀ obs : List Observation, obs ≠ [] →
        ((evaluate th obs).fleet_warning = true ↔
          (mean_soil obs < th.deg_moisture ∨ mean_temp obs > th.deg_temp ∨
            mean_veg obs < th.deg_veg))) ∧
      (evaluate th []).fleet_warning = false ∧
      (evaluate th []).per_row = [] ∧
      (evaluate th []).degraded_rows = [] := by
  refine ⟨?_, by simp [evaluate], by simp [evaluate], by simp [evaluate]⟩
  intro obs h
  simp [evaluate, h]

/-- C4 witness: a one-row fleet with the default thresholds — the input is
nonempty and the warning fires exactly when that row's readings, which are
the fleet means, cross the Degraded-tier defaults. -/
theorem C4_fleet_warning_witness :
    ([obsA] ≠ ([] : List Observation)) ∧
      ((evaluate defaultThresholds [obsA]).fleet_warning = true ↔
        (mean_soil [obsA] < defaultThresholds.deg_moisture ∨
          mean_temp [obsA] > defaultThresholds.deg_temp ∨
          mean_veg [obsA] < defaultThresholds.deg_veg)) :=
  ⟨by simp, (C4_fleet_warning defaultThresholds).1 [obsA] (by simp)⟩

end TerraScope
